import Mathlib

/-!
Shallow embedding of the two Streamlit GDP dashboards of this repository
(src/1.py and src/2.py) and proofs about the claims of its specification.

A table is modelled as a Lean list of rows; each component of the code is
translated on the row representation it actually touches:
pagination works on an arbitrary row type, free-text search on rows of
stringifiable cell values, the loader and the aggregations on rows carrying
the derived integer `year` and rational metric cells, where a missing value
(pandas NaN) is `Option.none`.  Machine floats are modelled as `ℚ`; the
claims under study are exact-value identities of the arithmetic formulas,
not statements about rounding.
-/

namespace GdpDash

/-! ## Pagination (src/1.py, lines 56-64)

`total_pages = max(1, len(df) // page_size)`; the page number widget is
clamped to `[1, total_pages]`; the displayed window is
`df.iloc[(page-1)*page_size : min((page-1)*page_size + page_size, len(df))]`. -/

/-- src/1.py line 57: `total_pages = max(1, len(df) // page_size)`
(floor division). -/
def total_pages (rowCount pageSize : Nat) : Nat :=
  max 1 (rowCount / pageSize)

/-- src/1.py lines 60-64: the window of rows shown for 1-based page number
`page`: drop `(page - 1) * page_size` rows, then take `page_size` rows
(`List.take` clamps at the end of the table exactly as
`min(start_idx + page_size, len(df))` does). -/
def pageWindow (T : List α) (pageSize page : Nat) : List α :=
  (T.drop ((page - 1) * pageSize)).take pageSize

/-- The concatenation, in order, of the windows of all pages
`1 .. total_pages`. -/
def concatPages (T : List α) (pageSize : Nat) : List α :=
  (List.range (total_pages T.length pageSize)).flatMap
    (fun i => pageWindow T pageSize (i + 1))

lemma pageWindow_succ (T : List α) (p i : Nat) :
    pageWindow T p (i + 1) = (T.drop (i * p)).take p := by
  simp [pageWindow]

lemma concat_windows (T : List α) (p : Nat) (k : Nat) :
    (List.range k).flatMap (fun i => pageWindow T p (i + 1)) = T.take (k * p) := by
  induction k with
  | zero => simp
  | succ k ih =>
    rw [List.range_succ, List.flatMap_append, ih]
    simp only [List.flatMap_cons, List.flatMap_nil, List.append_nil, pageWindow_succ]
    rw [Nat.succ_mul, List.take_add]

/-- **C1**, corrected.  For every table `T` and page size `p ≥ 1`, the code's
pagination uses `total_pages = max(1, ⌊|T| / p⌋)` (floor, not ceiling), so
concatenating the windows of pages `1 .. total_pages` in order yields the
*prefix* of `T` of length `total_pages * p` — the whole of `T` (no row
duplicated or omitted, order preserved) exactly when `p` divides `|T|` or
`|T| ≤ p`; otherwise the trailing `|T| mod p` rows are unreachable. -/
theorem paginate_pages {α : Type} (T : List α) (p : Nat) (hp : 1 ≤ p) :
    concatPages T p = T.take (total_pages T.length p * p)
    ∧ (p ∣ T.length ∨ T.length ≤ p → concatPages T p = T) := by
  have hmain : concatPages T p = T.take (total_pages T.length p * p) :=
    concat_windows T p (total_pages T.length p)
  refine ⟨hmain, fun h => ?_⟩
  have key : T.length ≤ total_pages T.length p * p := by
    unfold total_pages
    rcases h with hdvd | hle
    · have h1 : T.length / p * p = T.length := Nat.div_mul_cancel hdvd
      calc T.length = T.length / p * p := h1.symm
        _ ≤ max 1 (T.length / p) * p :=
            Nat.mul_le_mul_right p (le_max_right 1 (T.length / p))
    · calc T.length ≤ p := hle
        _ = 1 * p := (one_mul p).symm
        _ ≤ max 1 (T.length / p) * p :=
            Nat.mul_le_mul_right p (le_max_left 1 (T.length / p))
  rw [hmain]
  exact List.take_of_length_le key

/-- Witness for `paginate_pages` at a concrete input: 4 rows, page size 2. -/
theorem paginate_pages_witness :
    concatPages [0, 1, 2, 3] 2 = List.take (total_pages (List.length [0, 1, 2, 3]) 2 * 2) [0, 1, 2, 3]
    ∧ concatPages [0, 1, 2, 3] 2 = [0, 1, 2, 3] :=
  ⟨(paginate_pages [0, 1, 2, 3] 2 (by decide)).1,
   (paginate_pages [0, 1, 2, 3] 2 (by decide)).2 (Or.inl (by decide))⟩

/-- **C1** counterexample to the claim as stated: for the 3-row table
`[0, 1, 2]` and page size 2, `total_pages = max(1, 3 // 2) = 1`, and the
concatenation of all pages is `[0, 1]` — row `2` is omitted, so the pages do
not reconstruct the table. -/
theorem paginate_pages_cex :
    total_pages (List.length [0, 1, 2]) 2 = 1
    ∧ concatPages [0, 1, 2] 2 = [0, 1]
    ∧ concatPages [0, 1, 2] 2 ≠ [0, 1, 2] := by
  decide

/-! ## Free-text search (src/1.py, lines 47-53)

`mask = df.apply(lambda row: row.astype(str).str.contains(search_term,
case=False, na=False).any(), axis=1)`, applied only `if search_term:` —
an empty term skips the filter and the full table is shown.

`Series.str.contains` interprets its pattern as a *regular expression*
(`regex=True` is the pandas default) searched with `re.search` under
`re.IGNORECASE` (`case=False`).  The regex engine is embedded here on the
fragment the analysed patterns need: a pattern character `.` matches any one
text character and every other pattern character matches itself. -/

/-- A cell value as seen by `row.astype(str)`: either the Python string form
of a present value (numbers and dates enter as their `str()` rendering), or a
missing cell (pandas NaN). -/
inductive Value where
  | vstr (s : String)
  | vmissing
deriving DecidableEq

/-- Python stringification after `astype(str)`: a missing value (NaN) becomes
the literal string "nan". -/
def pyStr : Value → String
  | .vstr s => s
  | .vmissing => "nan"

/-- Match the pattern at the head of the text: `.` matches any one character,
any other pattern character matches itself (the literal-and-dot fragment of
Python `re`). -/
def regexMatchAt : List Char → List Char → Bool
  | [], _ => true
  | _ :: _, [] => false
  | p :: ps, c :: ts => (p == '.' || p == c) && regexMatchAt ps ts

/-- Python `re.search`: the pattern matches at some position of the text. -/
def regexSearch (pat txt : List Char) : Bool :=
  regexMatchAt pat txt ||
    match txt with
    | [] => false
    | _ :: ts => regexSearch pat ts

/-- Match the pattern literally at the head of the text (every pattern
character, `.` included, matches only itself). -/
def litMatchAt : List Char → List Char → Bool
  | [], _ => true
  | _ :: _, [] => false
  | p :: ps, c :: ts => p == c && litMatchAt ps ts

/-- Literal substring occurrence at some position of the text. -/
def litSearch (pat txt : List Char) : Bool :=
  litMatchAt pat txt ||
    match txt with
    | [] => false
    | _ :: ts => litSearch pat ts

/-- Case folding for `case=False` / `re.IGNORECASE`. -/
def lowerChars (s : String) : List Char := s.toList.map Char.toLower

/-- `Series.str.contains(term, case=False)` on one cell: regex search of the
term over the cell's string form, case-insensitively. -/
def containsCI (term s : String) : Bool :=
  regexSearch (lowerChars term) (lowerChars s)

/-- The spec's wording of matching ("contains s (case-insensitive) in at
least one column's string form"): *literal* case-insensitive substring
containment, stated for comparison with the code's regex semantics. -/
def litContainsCI (term s : String) : Bool :=
  litSearch (lowerChars term) (lowerChars s)

/-- src/1.py lines 49-53: keep the rows in which some column's string form
matches the term; an empty term takes the other branch of
`if search_term:` and leaves the table untouched. -/
def search (T : List (List Value)) (term : String) : List (List Value) :=
  if term = "" then T
  else T.filter (fun row => row.any (fun v => containsCI term (pyStr v)))

/-- **C5**, corrected.  `search(T, "")` returns `T` unchanged, and every row
returned for a non-empty term has some column whose string form *matches the
term as a regular expression* case-insensitively — pandas `str.contains`
treats the term as a regex pattern, not as a literal substring. -/
theorem search_matches (T : List (List Value)) (s : String) (r : List Value)
    (h : r ∈ search T s) :
    search T "" = T
    ∧ r ∈ T
    ∧ (s ≠ "" → ∃ v ∈ r, containsCI s (pyStr v) = true) := by
  refine ⟨by simp [search], ?_, ?_⟩
  · by_cases hs : s = ""
    · subst hs; simpa [search] using h
    · rw [search, if_neg hs] at h
      exact (List.mem_filter.mp h).1
  · intro hs
    rw [search, if_neg hs] at h
    have hany := (List.mem_filter.mp h).2
    simpa using List.any_eq_true.mp hany

/-- Witness for `search_matches`: the term "b" returns the row `["abc"]`. -/
theorem search_matches_witness :
    search [[Value.vstr "abc"]] "" = [[Value.vstr "abc"]]
    ∧ [Value.vstr "abc"] ∈ [[Value.vstr "abc"]]
    ∧ ("b" ≠ "" → ∃ v ∈ [Value.vstr "abc"], containsCI "b" (pyStr v) = true) :=
  search_matches [[Value.vstr "abc"]] "b" [Value.vstr "abc"] (by decide)

/-- **C5** counterexample to the claim as stated: searching for "x.z" returns
the row whose only value is "xyz" (the `.` of the term matches any character
as a regex), although "x.z" is not contained case-insensitively as a literal
substring of "xyz". -/
theorem search_matches_cex :
    search [[Value.vstr "xyz"]] "x.z" = [[Value.vstr "xyz"]]
    ∧ litContainsCI "x.z" (pyStr (Value.vstr "xyz")) = false := by
  decide

/-- **C10**, confirmed.  `astype(str)` turns a missing (NaN) value into the
string "nan", so the row `["xyz", NaN]` is returned when searching for the
term "nan" — and for "NA", a case-insensitive substring of it — even though
the only actual data value, "xyz", does not contain the term. -/
theorem search_nan :
    search [[Value.vstr "xyz", Value.vmissing]] "nan"
      = [[Value.vstr "xyz", Value.vmissing]]
    ∧ search [[Value.vstr "xyz", Value.vmissing]] "NA"
      = [[Value.vstr "xyz", Value.vmissing]]
    ∧ litContainsCI "nan" (pyStr (Value.vstr "xyz")) = false
    ∧ litContainsCI "NA" (pyStr (Value.vstr "xyz")) = false := by
  decide

/-! ## The loader of src/2.py (lines 90-108)

`load_data` fetches the parquet snapshot inside `try:`; on success it parses
the date column, derives `year` and `year_str` and then *unconditionally*
keeps only rows with `year >= 2000` (line 103); on any exception it shows the
message with `st.error` and returns an empty `DataFrame`.  `load_data` takes
no arguments: there is no caller-supplied minimum-year option anywhere. -/

/-- A loaded row of src/2.py after the `year` derivation, with an opaque tag
standing for the rest of the row's payload. -/
structure LRow where
  year : Int
  tag : String
deriving DecidableEq

/-- Outcome of `pd.read_parquet(URL_DATA)` together with the date parsing:
either parsed rows, or the message of the exception raised by a network,
parse or schema failure. -/
inductive Fetched where
  | ok (rows : List LRow)
  | failure (msg : String)
deriving DecidableEq

/-- src/2.py lines 91-108: on success keep only the rows with
`year >= 2000`; on any exception display the message and return an empty
DataFrame. -/
def load_data2 : Fetched → List LRow
  | .ok rows => rows.filter (fun r => decide (2000 ≤ r.year))
  | .failure _ => []

/-- Modelled from the spec (§4.1, §7): the error category a failed load is
said to return.  No such type exists anywhere in the code. -/
inductive ErrCategory where
  | network
  | parse
  | schema
deriving DecidableEq

/-- Modelled from the spec (§4.1): "a `LoadError` carrying an error category
(`network`, `parse`, `schema`) and the underlying message".  Stated only for
comparison: the code's loader returns a plain (possibly empty) table and
never constructs such a value. -/
structure LoadError where
  category : ErrCategory
  message : String
deriving DecidableEq

/-- **C2**, corrected.  The `year >= 2000` restriction of src/2.py line 103
is applied on *every* successful load — it is a hard-coded default, not a
caller-supplied option (`load_data` has no parameters).  What loading does
return is exactly the snapshot rows of year ≥ 2000, in their original
order. -/
theorem load_min_year (rows : List LRow) :
    (∀ r, r ∈ load_data2 (Fetched.ok rows) ↔ r ∈ rows ∧ 2000 ≤ r.year)
    ∧ (load_data2 (Fetched.ok rows)).Sublist rows := by
  constructor
  · intro r
    simp [load_data2, List.mem_filter]
  · exact List.filter_sublist rows

/-- **C2** counterexample to the claim as stated: a snapshot whose only row
has year 1999 is loaded (no option supplied anywhere — `load_data()` takes no
arguments), yet the returned table is empty: the pre-2000 row is silently
dropped by a hidden default cutoff. -/
theorem load_min_year_cex :
    load_data2 (Fetched.ok [⟨1999, "r0"⟩]) = []
    ∧ ((⟨1999, "r0"⟩ : LRow) ∈ [(⟨1999, "r0"⟩ : LRow)]) := by
  decide

/-- **C3**, corrected.  The loader never lets an exception escape (it is a
total function), but on failure it returns an *empty table* after displaying
the message — not a structured `LoadError`: the returned value is empty
exactly when the fetch failed or every parsed row was filtered out. -/
theorem load_error_amended (f : Fetched) :
    load_data2 f = []
      ↔ (∃ m, f = Fetched.failure m)
        ∨ (∃ rows, f = Fetched.ok rows
            ∧ rows.filter (fun r => decide (2000 ≤ r.year)) = []) := by
  cases f with
  | ok rows => simp [load_data2]
  | failure m => simp [load_data2]

/-- **C3** counterexample to the claim as stated: two failures with different
messages (a network error and a parse error) and a successful load of an
empty snapshot all return the *same* value `[]` — the loader's result carries
neither an error category nor the underlying message, so no `LoadError`
structure is returned past the boundary. -/
theorem load_error_cex :
    load_data2 (Fetched.failure "URLError: unreachable")
      = load_data2 (Fetched.failure "ArrowInvalid: not a parquet file")
    ∧ load_data2 (Fetched.failure "URLError: unreachable")
      = load_data2 (Fetched.ok []) := by
  decide

/-! ## Per-year aggregation (src/2.py, lines 356-367 and 674-686)

`yearly_avg = filtered_df.groupby('year')[metric].mean().reset_index()`.
pandas `groupby(...).mean()` produces one entry per distinct year of the
frame; within a group the mean skips NaN (`skipna`), and a group whose
values are *all* NaN gets the value NaN — the year still appears in the
result's index.  A row is the projection of the frame onto the grouping key
`year` and one selected metric column (`none` = NaN cell). -/

/-- A row projected onto the derived `year` and one metric column. -/
structure ARow where
  year : Int
  value : Option ℚ
deriving DecidableEq

/-- The non-missing metric values of year `y`. -/
def nonMissing (rows : List ARow) (y : Int) : List ℚ :=
  (rows.filter (fun r => decide (r.year = y))).filterMap (fun r => r.value)

/-- The pandas group mean with `skipna`: the mean of the non-missing values
of year `y`, and NaN (`none`) when the group has no non-missing value. -/
def groupMean (rows : List ARow) (y : Int) : Option ℚ :=
  if nonMissing rows y = [] then none
  else some ((nonMissing rows y).sum / (nonMissing rows y).length)

/-- The distinct years of the table — the group keys of `groupby('year')`
(key order is immaterial to the claims). -/
def distinctYears (rows : List ARow) : List Int :=
  (rows.map (fun r => r.year)).dedup

/-- src/2.py line 358: `filtered_df.groupby('year')[metric].mean()` — one
entry per distinct year, carrying that year's skipna mean (NaN when every
value of the group is missing). -/
def yearly_avg (rows : List ARow) : List (Int × Option ℚ) :=
  (distinctYears rows).map (fun y => (y, groupMean rows y))

/-- **C4**, corrected.  Every year present in the table yields exactly the
entry `(y, groupMean)` in the grouped result, where the group mean is the
mean over the year's non-missing values when at least one exists — but a
year whose values are all missing yields an entry carrying NaN (`none`),
not an *absent* entry.  (It is still never the number zero.) -/
theorem yearly_avg_entries (rows : List ARow) (y : Int)
    (h : y ∈ rows.map (fun r => r.year)) :
    (y, groupMean rows y) ∈ yearly_avg rows
    ∧ (nonMissing rows y = [] → groupMean rows y = none)
    ∧ (nonMissing rows y ≠ [] →
        groupMean rows y
          = some ((nonMissing rows y).sum / (nonMissing rows y).length)) := by
  refine ⟨?_, ?_, ?_⟩
  · exact List.mem_map_of_mem (fun z => (z, groupMean rows z)) (List.mem_dedup.mpr h)
  · intro h0
    rw [groupMean, if_pos h0]
  · intro h0
    rw [groupMean, if_neg h0]

/-- Witness for `yearly_avg_entries`: a year with one present and one
missing value. -/
theorem yearly_avg_entries_witness :
    ((2020 : Int), groupMean [⟨2020, some 4⟩, ⟨2020, none⟩] 2020)
        ∈ yearly_avg [⟨2020, some 4⟩, ⟨2020, none⟩]
    ∧ (nonMissing [⟨2020, some 4⟩, ⟨2020, none⟩] 2020 = [] →
        groupMean [⟨2020, some 4⟩, ⟨2020, none⟩] 2020 = none)
    ∧ (nonMissing [⟨2020, some 4⟩, ⟨2020, none⟩] 2020 ≠ [] →
        groupMean [⟨2020, some 4⟩, ⟨2020, none⟩] 2020
          = some ((nonMissing [⟨2020, some 4⟩, ⟨2020, none⟩] 2020).sum
              / (nonMissing [⟨2020, some 4⟩, ⟨2020, none⟩] 2020).length)) :=
  yearly_avg_entries [⟨2020, some 4⟩, ⟨2020, none⟩] 2020 (by decide)

/-- **C4** counterexample to the claim as stated: a table whose single row
has year 2020 and a missing metric value.  The year has zero non-missing
values, yet the grouped result *does* contain an entry for 2020 — carrying
NaN — rather than no entry. -/
theorem yearly_avg_cex :
    yearly_avg [⟨2020, none⟩] = [(2020, none)]
    ∧ nonMissing [⟨2020, none⟩] 2020 = [] := by
  decide

/-! ## Year-over-year growth (src/2.py, line 207) -/

/-- src/2.py line 207:
`growth = ((latest_value - prev_value) / prev_value * 100) if prev_value != 0 else 0`. -/
def growth (latest previous : ℚ) : ℚ :=
  if previous ≠ 0 then (latest - previous) / previous * 100 else 0

/-- **C6**, confirmed.  `growth` is `(latest - previous) / previous * 100`
for a nonzero previous value and 0 for a zero previous value; in particular
`growth 100 50 = 100`, `growth 50 0 = 0` and `growth x x = 0` for every
nonzero `x`. -/
theorem growth_spec :
    growth 100 50 = 100
    ∧ growth 50 0 = 0
    ∧ (∀ x : ℚ, x ≠ 0 → growth x x = 0)
    ∧ (∀ l p : ℚ, p ≠ 0 → growth l p = (l - p) / p * 100) := by
  refine ⟨by norm_num [growth], by norm_num [growth], ?_, ?_⟩
  · intro x hx
    simp [growth, hx]
  · intro l p hp
    rw [growth, if_pos hp]

/-- Witness for `growth_spec` at nonzero concrete inputs. -/
theorem growth_spec_witness :
    growth 7 7 = 0 ∧ growth 3 2 = (3 - 2) / 2 * 100 :=
  ⟨growth_spec.2.2.1 7 (by norm_num), growth_spec.2.2.2 3 2 (by norm_num)⟩

/-! ## Pearson correlation (src/2.py, lines 577-591 and 636)

`scatter_df = df[[x_metric, y_metric, 'year_str']].dropna()` keeps the rows
in which both metrics are present (`year_str`, a derived string column, is
never NaN); with fewer than 2 remaining rows the view stops; otherwise
`correlation = scatter_df[x_metric].corr(scatter_df[y_metric])` is the
Pearson coefficient `r = covSum / √(varX · varY)`, which pandas reports as
NaN when either metric is constant (zero variance).  Since the square root
leaves `ℚ`, `r` is represented below by the triple
`(covSum, varX, varY)`; `r ∈ [-1, 1]` holds iff `covSum ^ 2 ≤ varX * varY`,
and `none` stands for the refused / NaN outcomes. -/

/-- A row projected onto the two selected metric columns (`none` = NaN). -/
structure CRow where
  x : Option ℚ
  y : Option ℚ
deriving DecidableEq

/-- `df[[x_metric, y_metric, 'year_str']].dropna()`: the fully populated
(x, y) pairs, in the original row order. -/
def dropna (rows : List CRow) : List (ℚ × ℚ) :=
  rows.filterMap (fun r =>
    match r.x, r.y with
    | some a, some b => some (a, b)
    | _, _ => none)

/-- Mean of the first coordinates. -/
def meanX (ps : List (ℚ × ℚ)) : ℚ := (ps.map Prod.fst).sum / ps.length

/-- Mean of the second coordinates. -/
def meanY (ps : List (ℚ × ℚ)) : ℚ := (ps.map Prod.snd).sum / ps.length

/-- Sum of centred cross products — the numerator of Pearson r. -/
def covSum (ps : List (ℚ × ℚ)) : ℚ :=
  (ps.map (fun p => (p.1 - meanX ps) * (p.2 - meanY ps))).sum

/-- Sum of squared deviations of the first coordinates. -/
def varX (ps : List (ℚ × ℚ)) : ℚ :=
  (ps.map (fun p => (p.1 - meanX ps) ^ 2)).sum

/-- Sum of squared deviations of the second coordinates. -/
def varY (ps : List (ℚ × ℚ)) : ℚ :=
  (ps.map (fun p => (p.2 - meanY ps) ^ 2)).sum

/-- src/2.py lines 586-591 and 636: drop incomplete rows; refuse with fewer
than 2 of them; `Series.corr` is NaN (`none`) when a variance is zero, and
otherwise the Pearson coefficient, represented by its numerator and the two
variance sums. -/
def correlation (rows : List CRow) : Option (ℚ × ℚ × ℚ) :=
  if (dropna rows).length < 2 then none
  else if varX (dropna rows) = 0 ∨ varY (dropna rows) = 0 then none
  else some (covSum (dropna rows), varX (dropna rows), varY (dropna rows))

lemma sum_map_eq_range (ps : List (ℚ × ℚ)) (φ : ℚ × ℚ → ℚ) :
    (ps.map φ).sum = ∑ i ∈ Finset.range ps.length, φ (ps.getD i (0, 0)) := by
  induction ps with
  | nil => simp
  | cons q t ih =>
    rw [List.map_cons, List.sum_cons, List.length_cons, Finset.sum_range_succ']
    simp only [List.getD_cons_succ, List.getD_cons_zero]
    rw [ih]
    ring

lemma list_cauchy_schwarz (ps : List (ℚ × ℚ)) (F G : ℚ × ℚ → ℚ) :
    ((ps.map (fun p => F p * G p)).sum) ^ 2
      ≤ ((ps.map (fun p => F p ^ 2)).sum) * ((ps.map (fun p => G p ^ 2)).sum) := by
  rw [sum_map_eq_range, sum_map_eq_range, sum_map_eq_range]
  exact Finset.sum_mul_sq_le_sq_mul_sq (Finset.range ps.length)
    (fun i => F (ps.getD i (0, 0))) (fun i => G (ps.getD i (0, 0)))

lemma covSum_sq_le (ps : List (ℚ × ℚ)) : covSum ps ^ 2 ≤ varX ps * varY ps :=
  list_cauchy_schwarz ps (fun p => p.1 - meanX ps) (fun p => p.2 - meanY ps)

/-- **C7**, corrected.  The coefficient is computed over exactly the fully
populated pairs; whenever it is defined its square is at most 1
(`covSum ^ 2 ≤ varX * varY`, i.e. `r ∈ [-1, 1]`), and it is defined exactly
when at least 2 such pairs exist *and both metrics have nonzero variance
over them* — with ≥ 2 pairs but a constant metric, pandas yields NaN, not a
value in `[-1, 1]`.  Fewer than 2 pairs always yield the undefined result. -/
theorem correlation_bounded (rows : List CRow) (c vx vy : ℚ)
    (h : correlation rows = some (c, vx, vy)) :
    ((dropna rows).length < 2 → correlation rows = none)
    ∧ 2 ≤ (dropna rows).length
    ∧ vx ≠ 0 ∧ vy ≠ 0
    ∧ c ^ 2 ≤ vx * vy := by
  refine ⟨fun hlt => by rw [correlation, if_pos hlt], ?_⟩
  by_cases h2 : (dropna rows).length < 2
  · rw [correlation, if_pos h2] at h
    exact absurd h (by simp)
  by_cases hv : varX (dropna rows) = 0 ∨ varY (dropna rows) = 0
  · rw [correlation, if_neg h2, if_pos hv] at h
    exact absurd h (by simp)
  rw [correlation, if_neg h2, if_neg hv] at h
  obtain ⟨hc, hvx, hvy⟩ : covSum (dropna rows) = c
      ∧ varX (dropna rows) = vx ∧ varY (dropna rows) = vy := by
    have h1 := Option.some.inj h
    exact ⟨congrArg (fun t => t.1) h1,
      congrArg (fun t => t.2.1) h1, congrArg (fun t => t.2.2) h1⟩
  push_neg at hv h2
  refine ⟨h2, ?_, ?_, ?_⟩
  · rw [← hvx]; exact hv.1
  · rw [← hvy]; exact hv.2
  · rw [← hc, ← hvx, ← hvy]; exact covSum_sq_le (dropna rows)

/-- Witness for `correlation_bounded`: the two points (0, 0) and (2, 2) give
`covSum = 2`, `varX = varY = 2`, and `2 ^ 2 ≤ 2 * 2`. -/
theorem correlation_bounded_witness :
    ((dropna [⟨some 0, some 0⟩, ⟨some 2, some 2⟩]).length < 2 →
      correlation [⟨some 0, some 0⟩, ⟨some 2, some 2⟩] = none)
    ∧ 2 ≤ (dropna [⟨some 0, some 0⟩, ⟨some 2, some 2⟩]).length
    ∧ (2 : ℚ) ≠ 0 ∧ (2 : ℚ) ≠ 0
    ∧ (2 : ℚ) ^ 2 ≤ 2 * 2 :=
  correlation_bounded [⟨some 0, some 0⟩, ⟨some 2, some 2⟩] 2 2 2 (by
    have hd : dropna [⟨some 0, some 0⟩, ⟨some 2, some 2⟩] = [(0, 0), (2, 2)] := by
      decide
    have hvx : varX [((0 : ℚ), (0 : ℚ)), (2, 2)] = 2 := by
      norm_num [varX, meanX]
    have hvy : varY [((0 : ℚ), (0 : ℚ)), (2, 2)] = 2 := by
      norm_num [varY, meanY]
    have hcov : covSum [((0 : ℚ), (0 : ℚ)), (2, 2)] = 2 := by
      norm_num [covSum, meanX, meanY]
    rw [correlation, hd, if_neg (by norm_num), if_neg (by rw [hvx, hvy]; norm_num),
      hcov, hvx, hvy])

/-- **C7** counterexample to the claim as stated: the two fully populated
pairs (1, 1) and (1, 2) — at least 2 of them — have a constant x metric,
so `Series.corr` yields NaN (undefined), not a value in `[-1, 1]`. -/
theorem correlation_cex :
    (dropna [⟨some 1, some 1⟩, ⟨some 1, some 2⟩]).length = 2
    ∧ correlation [⟨some 1, some 1⟩, ⟨some 1, some 2⟩] = none := by
  have hd : dropna [⟨some 1, some 1⟩, ⟨some 1, some 2⟩] = [(1, 1), (1, 2)] := by
    decide
  have hvx : varX [((1 : ℚ), (1 : ℚ)), (1, 2)] = 0 := by
    norm_num [varX, meanX]
  constructor
  · rw [hd]; rfl
  · rw [correlation, hd, if_neg (by norm_num), if_pos (Or.inl hvx)]

/-! ## Date normalization (src/1.py lines 19-24; src/2.py lines 97-100)

The parquet snapshot stores dates as nanosecond timestamps.  src/1.py
applies `pd.to_datetime(df['date']).dt.floor('s')` — flooring to whole
seconds.  src/2.py applies only `pd.to_datetime(df['date'])` and derives
the year: the nanosecond value is kept as is.  Timestamps are modelled as
nanoseconds since the epoch (all dates of the dataset are after 1970, so
`Nat` suffices and Python floor division agrees with `Nat` division). -/

/-- Nanoseconds in one second. -/
def nsPerSec : Nat := 1000000000

/-- src/1.py line 21: `dt.floor('s')` applied to one date cell. -/
def load_data1_date (t : Nat) : Nat := t / nsPerSec * nsPerSec

/-- src/2.py line 98: `pd.to_datetime(df['date'])` with no flooring — the
stored nanosecond timestamp is unchanged. -/
def load_data2_date (t : Nat) : Nat := t

/-- **C8**, corrected.  The dashboard of src/1.py floors every date to whole
seconds: the result has zero sub-second component, never exceeds the input,
and differs from it by less than one second while keeping the same whole
second.  The dashboard of src/2.py returns every date value unchanged —
it performs no sub-second normalization at all. -/
theorem date_floor (t : Nat) :
    load_data1_date t % nsPerSec = 0
    ∧ load_data1_date t ≤ t
    ∧ t - load_data1_date t < nsPerSec
    ∧ load_data1_date t / nsPerSec = t / nsPerSec
    ∧ load_data2_date t = t := by
  unfold load_data1_date load_data2_date nsPerSec
  refine ⟨?_, ?_, ?_, ?_, rfl⟩ <;> omega

/-- **C8** counterexample to the claim as stated: the timestamp
2020-01-01 00:00:00.123456789 (in nanoseconds since the epoch) passes
through src/2.py's loader with its sub-second component intact. -/
theorem date_floor_cex :
    load_data2_date 1577836800123456789 = 1577836800123456789
    ∧ load_data2_date 1577836800123456789 % nsPerSec ≠ 0 := by
  decide

/-! ## Heatmap synthesis (src/2.py, lines 514-545)

With a selected year range spanning fewer than 2 years the view warns and
returns without producing data (lines 524-527).  Otherwise, for every year
of `range(start_year, end_year + 1)` that occurs in the table, the loop
appends four entries Q1..Q4 whose value is the year's (skipna) mean of the
selected metric scaled by `0.8 + 0.2 * (period / 4)` — synthetic quarterly
data, not real sub-annual figures. -/

/-- `range(start_year, end_year + 1)` as a list of years. -/
def yearRange (startY endY : Int) : List Int :=
  List.map (fun (i : Nat) => startY + (i : Int)) (List.range (endY + 1 - startY).toNat)

/-- The synthetic quarter scaling factor `0.8 + 0.2 * (period / 4)` of
src/2.py line 540 (`period / 4` is Python true division). -/
def quarterFactor (period : Nat) : ℚ :=
  4 / 5 + 1 / 5 * ((period : ℚ) / 4)

/-- src/2.py lines 514-545: the heatmap data rows (year, period, value);
empty when the selected range spans fewer than 2 years; the per-year mean is
NaN-propagating (`Option.map`), matching `year_data[metric].mean() * f`. -/
def heatmap_data (rows : List ARow) (startY endY : Int) :
    List (Int × Nat × Option ℚ) :=
  if (yearRange startY endY).length < 2 then []
  else
    (yearRange startY endY).flatMap (fun y =>
      if (rows.filter (fun r => decide (r.year = y))).isEmpty then []
      else (List.range 4).map (fun p =>
        (y, p + 1, (groupMean rows y).map (fun m => m * quarterFactor (p + 1)))))

lemma yearRange_length (startY endY : Int) :
    (yearRange startY endY).length = (endY + 1 - startY).toNat := by
  simp [yearRange]

lemma yearRange_nodup (startY endY : Int) : (yearRange startY endY).Nodup := by
  refine List.Nodup.map ?_ (List.nodup_range _)
  intro a b hab
  simp only [add_right_inj, Nat.cast_inj] at hab
  exact hab

lemma yearRange_mem (startY endY y : Int) (h1 : startY ≤ y) (h2 : y ≤ endY) :
    y ∈ yearRange startY endY := by
  have hmem : (y - startY).toNat ∈ List.range (endY + 1 - startY).toNat :=
    List.mem_range.mpr (by omega)
  have heq : startY + ((y - startY).toNat : Int) = y := by omega
  exact List.mem_map.mpr ⟨(y - startY).toNat, hmem, heq⟩

lemma filter_fst_flatMap (f : Int → List (Int × Nat × Option ℚ)) (y : Int)
    (hf : ∀ z e, e ∈ f z → e.1 = z) :
    ∀ l : List Int, l.Nodup → y ∈ l →
      (l.flatMap f).filter (fun e => decide (e.1 = y)) = f y := by
  have hnil : ∀ l : List Int, y ∉ l →
      (l.flatMap f).filter (fun e => decide (e.1 = y)) = [] := by
    intro l hl
    refine List.filter_eq_nil_iff.mpr ?_
    intro e he
    obtain ⟨z, hz, hez⟩ := List.mem_flatMap.mp he
    have : e.1 = z := hf z e hez
    simp only [this, decide_eq_true_eq]
    intro hzy
    exact hl (hzy ▸ hz)
  intro l
  induction l with
  | nil => intro _ hy; cases hy
  | cons a t ih =>
    intro hnd hy
    have hnd2 := List.nodup_cons.mp hnd
    rw [List.flatMap_cons, List.filter_append]
    rcases List.mem_cons.mp hy with rfl | hmem
    · have h1 : (f y).filter (fun e => decide (e.1 = y)) = f y :=
        List.filter_eq_self.mpr (fun e he => by
          simp only [hf y e he, decide_eq_true_eq])
      rw [h1, hnil t hnd2.1, List.append_nil]
    · have hay : a ≠ y := fun hcase => hnd2.1 (hcase ▸ hmem)
      have h1 : (f a).filter (fun e => decide (e.1 = y)) = [] :=
        List.filter_eq_nil_iff.mpr (fun e he => by
          simp only [hf a e he, decide_eq_true_eq]
          exact hay)
      rw [h1, List.nil_append]
      exact ih hnd2.2 hmem

/-- **C9**, corrected.  Provided the selected range spans at least two years,
every year of the range present in the table yields exactly the four entries
Q1..Q4, whose values are the year's mean scaled by the synthetic factors
`0.8 + 0.2 * (p / 4)` — i.e. 17/20, 9/10, 19/20 and 1 — rather than real
sub-annual data.  (A single-year range produces no heatmap at all.) -/
theorem heatmap_quarters (rows : List ARow) (startY endY y : Int)
    (hspan : startY + 1 ≤ endY) (hy1 : startY ≤ y) (hy2 : y ≤ endY)
    (hpres : (rows.filter (fun r => decide (r.year = y))).isEmpty = false) :
    (heatmap_data rows startY endY).filter (fun e => decide (e.1 = y))
      = [(y, 1, (groupMean rows y).map (fun m => m * quarterFactor 1)),
         (y, 2, (groupMean rows y).map (fun m => m * quarterFactor 2)),
         (y, 3, (groupMean rows y).map (fun m => m * quarterFactor 3)),
         (y, 4, (groupMean rows y).map (fun m => m * quarterFactor 4))] := by
  have hlen : ¬ (yearRange startY endY).length < 2 := by
    rw [yearRange_length]
    omega
  rw [heatmap_data, if_neg hlen]
  rw [filter_fst_flatMap _ y ?_ (yearRange startY endY)
      (yearRange_nodup startY endY) (yearRange_mem startY endY y hy1 hy2)]
  · rw [if_neg (by rw [hpres]; exact Bool.false_ne_true)]
    rfl
  · intro z e he
    by_cases hz : (rows.filter (fun r => decide (r.year = z))).isEmpty
    · rw [if_pos hz] at he
      cases he
    · rw [if_neg hz] at he
      obtain ⟨p, _, hpe⟩ := List.mem_map.mp he
      rw [← hpe]

/-- Witness for `heatmap_quarters`: a two-year table over the range
2020-2021. -/
theorem heatmap_quarters_witness :
    (heatmap_data [⟨2020, some 10⟩, ⟨2021, some 20⟩] 2020 2021).filter
        (fun e => decide (e.1 = (2020 : Int)))
      = [(2020, 1, (groupMean [⟨2020, some 10⟩, ⟨2021, some 20⟩] 2020).map
            (fun m => m * quarterFactor 1)),
         (2020, 2, (groupMean [⟨2020, some 10⟩, ⟨2021, some 20⟩] 2020).map
            (fun m => m * quarterFactor 2)),
         (2020, 3, (groupMean [⟨2020, some 10⟩, ⟨2021, some 20⟩] 2020).map
            (fun m => m * quarterFactor 3)),
         (2020, 4, (groupMean [⟨2020, some 10⟩, ⟨2021, some 20⟩] 2020).map
            (fun m => m * quarterFactor 4))] :=
  heatmap_quarters [⟨2020, some 10⟩, ⟨2021, some 20⟩] 2020 2021 2020
    (by decide) (by decide) (by decide) (by decide)

/-- **C9** counterexample to the claim as stated: with the single-year range
2020-2020 and a table in which 2020 is present, the heatmap view produces
*no* entries at all (the `< 2` years guard returns early), not four. -/
theorem heatmap_quarters_cex :
    ((2020 : Int) ∈ yearRange 2020 2020)
    ∧ (List.filter (fun r => decide (r.year = (2020 : Int))) [(⟨2020, some 1⟩ : ARow)]).isEmpty = false
    ∧ heatmap_data [⟨2020, some 1⟩] 2020 2020 = [] := by
  decide

end GdpDash
